import Mathlib

/-!
Shallow embedding of the matter-snap-testing helper library (Go) and proofs
of its specification's claims.

The library under study has four source files:
* `utils/net.go`    — `WaitServiceOnline` (bounded retry loop dialing TCP
  ports), `requireListenAllInterfaces`, `requireListenLoopback`,
  `isListenInterface`, `filterOpenPorts` (lsof-output based binding checks);
* `utils/log.go`    — `logFileName`, `WriteLogFile`, `WaitForLogMessage`;
* two config files  — `init`/`loadEnvVars` reading environment variables.

External effects are modelled by oracles:
* `dial : Nat → String → Option String` — outcome of `net.DialTimeout` for
  a given (1-based) round number and port: `none` models a successful dial
  (`conn ≠ nil`, `err = nil`), `some e` models a failed dial (`conn = nil`,
  `err` with message `e`).  `net.DialTimeout` returns a non-nil connection
  exactly when its error is nil, so one `Option` is a faithful model.
* `lsofOut : String → String` — stdout of `sudo lsof -nPi :<port> || true`.
* `logs : Nat → String` — accumulated snap log text as re-read on the
  given (1-based) attempt (`SnapLogs`).
* `env : String → String` — `os.Getenv`; the empty string means unset,
  exactly as the Go code tests (`if v := os.Getenv(..); v != ""`).
-/

namespace MatterSnap

/-- Go `strings.Contains s sub`: `sub` occurs as a contiguous substring of
`s` (true for the empty substring, as in Go). -/
def goContains (s sub : String) : Bool :=
  decide (sub.data <:+: s.data)

/-- Go `strings.Join xs sep` (source uses separator `", "`). -/
def goJoin (sep : String) : List String → String
  | [] => ""
  | [x] => x
  | x :: y :: xs => x ++ sep ++ goJoin sep (y :: xs)

/-- `net.go`: `var portService = map[string]string{"5550": "chip-tool"}`. -/
def portService : List (String × String) := [("5550", "chip-tool")]

/-- One entry of `prettyPorts` (`net.go` lines 80-87): a known port is
rendered `"<port> (<service>)"`, an unknown one as the bare port. -/
def prettyPort (p : String) : String :=
  match portService.find? (fun e => e.1 == p) with
  | some e => p ++ " (" ++ e.2 ++ ")"
  | none => p

/-- `prettyPorts` (`net.go` lines 79-89): the pretty entries joined by `", "`. -/
def prettyPorts (ports : List String) : String :=
  goJoin ", " (ports.map prettyPort)

/-- The inner loop of one retry round (`net.go` lines 101-109): dial every
still-pending port in order; a port is kept in the pending list exactly when
`conn == nil` (the dial failed), and `returnErr` is overwritten by every
dial, so the second component is the error of the last dial performed (the
argument `prevErr` when the pending list is empty). -/
def dialRound (dial : String → Option String) :
    List String → Option String → List String × Option String
  | [], prevErr => ([], prevErr)
  | p :: rest, prevErr =>
    let r := dial p
    let dr := dialRound dial rest r
    ((if r.isSome then p :: dr.1 else dr.1), dr.2)

/-- The log message printed at the top of round `i` (`net.go` line 94). -/
def roundLogMsg (i maxRetry : Nat) (pending : List String) : String :=
  "Retry " ++ toString i ++ "/" ++ toString maxRetry ++
    ": Waiting for ports: " ++ prettyPorts pending

/-- How `WaitServiceOnline` ends: `ok` models `return nil` from inside the
loop; `timeout lastErr` models falling out of the loop with `returnErr =
lastErr` (`none` = Go `nil`), after which the timeout error is built and
either `t.Fatal`ed or returned. -/
inductive WaitOutcome where
  | ok : WaitOutcome
  | timeout (lastErr : Option String) : WaitOutcome
deriving Repr, DecidableEq

/-- Observable behaviour of one `WaitServiceOnline` call: number of loop
rounds executed, the `t.Log` messages printed (one per round, in order),
the final pending (`closedPorts`) list, and the outcome. -/
structure WaitResult where
  rounds : Nat
  logs : List String
  pending : List String
  outcome : WaitOutcome
deriving Repr, DecidableEq

/-- The loop of `WaitServiceOnline` (`net.go` lines 92-116), with the round
counter `i` starting at 1 and `fuel` the number of rounds left
(`maxRetry - i + 1`).  Each round logs, dials every pending port once,
and returns `ok` as soon as the pending list is empty at the end of a
round; exhausting the fuel yields `timeout` with the last dial error. -/
def waitAux (dial : Nat → String → Option String) (maxRetry i : Nat) :
    Nat → List String → Option String → WaitResult
  | 0, pending, retErr => ⟨0, [], pending, .timeout retErr⟩
  | fuel + 1, pending, retErr =>
    let msg := roundLogMsg i maxRetry pending
    let dr := dialRound (dial i) pending retErr
    if dr.1 = [] then ⟨1, [msg], dr.1, .ok⟩
    else
      let r := waitAux dial maxRetry (i + 1) fuel dr.1 dr.2
      ⟨r.rounds + 1, msg :: r.logs, r.pending, r.outcome⟩

/-- `WaitServiceOnline t maxRetry ports` (`net.go` lines 75-131): the loop
starts from round 1 with `closedPorts` a copy of `ports` and `returnErr`
nil.  (The trailing `t.Fatal(err)` vs `return err` distinction is the
reporting channel, not the decision; both report the same timeout error.) -/
def waitServiceOnline (dial : Nat → String → Option String)
    (maxRetry : Nat) (ports : List String) : WaitResult :=
  waitAux dial maxRetry 1 maxRetry ports none

/-- The error message built after the loop (`net.go` lines 118-123):
`"Time out: reached max %d retries. Error: %v"` when `returnErr != nil`,
and `"Time out: reached max %d retries."` otherwise. -/
def timeoutErrorMsg (maxRetry : Nat) : Option String → String
  | some e => "Time out: reached max " ++ toString maxRetry ++ " retries. Error: " ++ e
  | none => "Time out: reached max " ++ toString maxRetry ++ " retries."

/-- What the caller sees after the loop: nothing for `ok` (the function
returns `nil`), and for a timeout the error message of `net.go` lines
118-128 (passed to `t.Fatal` when `t != nil`, returned otherwise). -/
def reportedError (maxRetry : Nat) : WaitOutcome → Option String
  | .ok => none
  | .timeout e => some (timeoutErrorMsg maxRetry e)

/-- The pending (`closedPorts`) list after `k` rounds when the first round
executed is round `i` (the pending list does not depend on the threaded
`returnErr`, so `none` is passed as a dummy). -/
def pendingFrom (dial : Nat → String → Option String) (i : Nat)
    (pending : List String) : Nat → List String
  | 0 => pending
  | k + 1 => (dialRound (dial (i + k)) (pendingFrom dial i pending k) none).1

/-- The pending list after `k` full rounds of `waitServiceOnline`. -/
def pendingAfter (dial : Nat → String → Option String)
    (ports : List String) (k : Nat) : List String :=
  pendingFrom dial 1 ports k

/-! ### Binding checks (`net.go` lines 160-228) -/

/-- How one of the `require*` test helpers ends.  `panicked` models a Go
`panic`, `fatal` an immediate `t.Fatalf` (from a helper, aborting the whole
check), `failed` the `t.FailNow` taken at the end when `t.Errorf` was called
(with the accumulated error messages, in order), `passed` a clean return. -/
inductive CheckResult where
  | panicked (msg : String) : CheckResult
  | fatal (msg : String) : CheckResult
  | failed (msgs : List String) : CheckResult
  | passed : CheckResult
deriving Repr, DecidableEq

/-- `filterOpenPorts` (`net.go` lines 215-221): returns the lsof output,
but `t.Fatalf("Port %s is not open", port)` when that output is empty. -/
def filterOpenPorts (lsofOut : String → String) (port : String) :
    Except String String :=
  let stdout := lsofOut port
  if stdout = "" then .error ("Port " ++ port ++ " is not open")
  else .ok stdout

/-- `isListenInterface` (`net.go` lines 205-213): whether the lsof listing
contains the exact token `"<addr>:<port> (LISTEN)"`; propagates the fatal
error of `filterOpenPorts` on empty output. -/
def isListenInterface (lsofOut : String → String) (addr port : String) :
    Except String Bool :=
  (filterOpenPorts lsofOut port).map fun list =>
    goContains list (addr ++ ":" ++ port ++ " (LISTEN)")

/-- The per-port loop of `requireListenAllInterfaces` (`net.go` lines
165-176), accumulating `t.Errorf` messages in reverse in `errs`. -/
def requireListenAllInterfacesAux (lsofOut : String → String)
    (mustListen : Bool) : List String → List String → CheckResult
  | [], errs => if errs = [] then .passed else .failed errs.reverse
  | p :: ps, errs =>
    match isListenInterface lsofOut "*" p with
    | .error m => .fatal m
    | .ok isListening =>
      if mustListen && !isListening then
        requireListenAllInterfacesAux lsofOut mustListen ps
          (("Port " ++ p ++ " not listening to all interfaces") :: errs)
      else if !mustListen && isListening then
        requireListenAllInterfacesAux lsofOut mustListen ps
          (("Port " ++ p ++ " is listening to all interfaces") :: errs)
      else requireListenAllInterfacesAux lsofOut mustListen ps errs

/-- `requireListenAllInterfaces` (`net.go` lines 160-177): panics on an
empty port list, then checks every port's `*` binding. -/
def requireListenAllInterfaces (lsofOut : String → String)
    (mustListen : Bool) (ports : List String) : CheckResult :=
  if ports = [] then .panicked "No ports given as input"
  else requireListenAllInterfacesAux lsofOut mustListen ports []

/-- The per-port loop of `requireListenLoopback` (`net.go` lines 186-190). -/
def requireListenLoopbackAux (lsofOut : String → String) :
    List String → List String → CheckResult
  | [], errs => if errs = [] then .passed else .failed errs.reverse
  | p :: ps, errs =>
    match isListenInterface lsofOut "127.0.0.1" p with
    | .error m => .fatal m
    | .ok isListening =>
      if isListening then requireListenLoopbackAux lsofOut ps errs
      else
        requireListenLoopbackAux lsofOut ps
          (("Port " ++ p ++ " is not restricted to listen on loopback interface") :: errs)

/-- `requireListenLoopback` (`net.go` lines 181-194): panics on an empty
port list, then checks every port's `127.0.0.1` binding. -/
def requireListenLoopback (lsofOut : String → String)
    (ports : List String) : CheckResult :=
  if ports = [] then .panicked "No ports given as input"
  else requireListenLoopbackAux lsofOut ports []

/-- The spec's `CheckLoopbackBinding(ports, expectAllInterfaces)` is the
pair of assertions run by `testBindLoopback` (`net.go` lines 60-71): the
`*`-binding check with `mustListen = expectAllInterfaces` and the
`127.0.0.1`-binding check.  It succeeds when both pass. -/
def checkLoopbackBinding (lsofOut : String → String)
    (expectAllInterfaces : Bool) (ports : List String) :
    CheckResult × CheckResult :=
  (requireListenAllInterfaces lsofOut expectAllInterfaces ports,
   requireListenLoopback lsofOut ports)

/-! ### Logging helper (`log.go`) -/

/-- How `WaitForLogMessage` ends: `found i` models returning after the
match on attempt `i`; `timedOut` models the final
`t.Fatalf("Time out: reached max %d retries.", maxRetry)`. -/
inductive LogWaitResult where
  | found (attempt : Nat) : LogWaitResult
  | timedOut : LogWaitResult
deriving Repr, DecidableEq

/-- The loop of `WaitForLogMessage` (`log.go` lines 36-45) from attempt `i`
with `fuel` attempts left: each attempt re-reads the logs and returns on
the first one whose text contains `expectedLog`. -/
def waitForLogMessageFrom (logs : Nat → String) (expectedLog : String)
    (i : Nat) : Nat → LogWaitResult
  | 0 => .timedOut
  | fuel + 1 =>
    if goContains (logs i) expectedLog then .found i
    else waitForLogMessageFrom logs expectedLog (i + 1) fuel

/-- `WaitForLogMessage` (`log.go` lines 33-48): `const maxRetry = 10`,
attempts numbered 1 to 10. -/
def waitForLogMessage (logs : Nat → String) (expectedLog : String) :
    LogWaitResult :=
  waitForLogMessageFrom logs expectedLog 1 10

/-- Go `strings.ReplaceAll name "/" "-"` (`log.go` line 13): for the
single-character pattern `"/"` this is exactly a character map. -/
def replaceSlashes (s : String) : String :=
  ⟨s.data.map fun c => if c = '/' then '-' else c⟩

/-- `logFileName` (`log.go` lines 10-23): `label + ".log"`, prefixed by the
slash-mangled test name and `"-"` when `t != nil` (`name = some n`), inside
directory `"logs"`.  (The `os.MkdirAll` side effect has no bearing on the
returned path.) -/
def logFileName (name : Option String) (label : String) : String :=
  let fileName := label ++ ".log"
  let fileName :=
    match name with
    | some n => replaceSlashes n ++ "-" ++ fileName
    | none => fileName
  "logs" ++ "/" ++ fileName

/-- `WriteLogFile` (`log.go` lines 25-31): writes `content` verbatim to
`logFileName name label`; modelled as the (path, written bytes) pair. -/
def writeLogFile (name : Option String) (label content : String) :
    String × String :=
  (logFileName name label, content)

/-! ### Configuration (`init` in the first unnamed file, `loadEnvVars` in
the second) -/

/-- Go `strconv.ParseBool`: accepts exactly these twelve strings. -/
def parseBool (s : String) : Option Bool :=
  if s = "1" ∨ s = "t" ∨ s = "T" ∨ s = "true" ∨ s = "TRUE" ∨ s = "True" then
    some true
  else if s = "0" ∨ s = "f" ∨ s = "F" ∨ s = "false" ∨ s = "FALSE" ∨ s = "False" then
    some false
  else none

/-- The message of the error `strconv.ParseBool` returns (and the Go code
panics with) on an unparsable value. -/
def parseBoolErr (v : String) : String :=
  "strconv.ParseBool: parsing \x22" ++ v ++ "\x22: invalid syntax"

/-- The four package-level settings of the first config file, with their
declared defaults. -/
structure Config where
  serviceChannel : String
  localServiceSnapPath : String
  fullConfigTest : Bool
  skipTeardownRemoval : Bool
deriving Repr, DecidableEq

/-- The defaults of the first config file. -/
def defaultConfig : Config :=
  { serviceChannel := "latest/edge"
    localServiceSnapPath := ""
    fullConfigTest := false
    skipTeardownRemoval := false }

/-- `init` of the first config file: each variable overrides its default
when set to a non-empty value; a non-empty unparsable boolean panics
(modelled as `.error`). -/
def initConfig (env : String → String) : Except String Config :=
  let c := defaultConfig
  let c := if env "SERVICE_CHANNEL" = "" then c
           else { c with serviceChannel := env "SERVICE_CHANNEL" }
  let c := if env "LOCAL_SERVICE_SNAP" = "" then c
           else { c with localServiceSnapPath := env "LOCAL_SERVICE_SNAP" }
  (if env "FULL_CONFIG_TEST" = "" then Except.ok c
   else
     match parseBool (env "FULL_CONFIG_TEST") with
     | some b => Except.ok { c with fullConfigTest := b }
     | none => Except.error (parseBoolErr (env "FULL_CONFIG_TEST"))).bind
  fun c =>
    if env "SKIP_TEARDOWN_REMOVAL" = "" then Except.ok c
    else
      match parseBool (env "SKIP_TEARDOWN_REMOVAL") with
      | some b => Except.ok { c with skipTeardownRemoval := b }
      | none => Except.error (parseBoolErr (env "SKIP_TEARDOWN_REMOVAL"))

/-- The three package-level settings of the `env` package (second config
file), with their declared defaults. -/
structure EnvConfig where
  snapChannel : String
  snapPath : String
  teardown : Bool
deriving Repr, DecidableEq

/-- The defaults of the `env` package. -/
def defaultEnvConfig : EnvConfig :=
  { snapChannel := "latest/edge", snapPath := "", teardown := true }

/-- `loadEnvVars` of the `env` package: `SNAP_CHANNEL` and `SNAP_PATH`
override their defaults when non-empty; a non-empty unparsable `TEARDOWN`
panics (modelled as `.error`). -/
def loadEnvVars (env : String → String) : Except String EnvConfig :=
  let c := defaultEnvConfig
  let c := if env "SNAP_CHANNEL" = "" then c
           else { c with snapChannel := env "SNAP_CHANNEL" }
  let c := if env "SNAP_PATH" = "" then c
           else { c with snapPath := env "SNAP_PATH" }
  if env "TEARDOWN" = "" then Except.ok c
  else
    match parseBool (env "TEARDOWN") with
    | some b => Except.ok { c with teardown := b }
    | none => Except.error (parseBoolErr (env "TEARDOWN"))

/-! ### Helper lemmas about one dial round -/

/-- A round keeps exactly the ports whose dial failed (`conn == nil`),
in their original order. -/
theorem dialRound_fst (d : String → Option String) :
    ∀ (pending : List String) (e : Option String),
      (dialRound d pending e).1 = pending.filter fun p => (d p).isSome
  | [], _ => rfl
  | p :: rest, e => by
    simp only [dialRound, List.filter_cons, dialRound_fst d rest]

/-- The pending list a round produces does not depend on the incoming
`returnErr` value. -/
theorem dialRound_fst_indep (d : String → Option String)
    (pending : List String) (e e' : Option String) :
    (dialRound d pending e).1 = (dialRound d pending e').1 := by
  rw [dialRound_fst, dialRound_fst]

/-- A port whose dial failed in a round stays pending. -/
theorem mem_dialRound_of_fail (d : String → Option String)
    (pending : List String) (e : Option String) (p : String)
    (hp : p ∈ pending) (hfail : (d p).isSome = true) :
    p ∈ (dialRound d pending e).1 := by
  rw [dialRound_fst]
  exact List.mem_filter_of_mem hp hfail

/-- A port whose dial succeeded in a round is no longer pending after it. -/
theorem not_mem_dialRound_of_success (d : String → Option String)
    (pending : List String) (e : Option String) (p : String)
    (hsucc : d p = none) : p ∉ (dialRound d pending e).1 := by
  rw [dialRound_fst]
  intro hmem
  have := (List.mem_filter.mp hmem).2
  rw [hsucc] at this
  exact Bool.false_ne_true this

/-- Each round's pending list is a subsequence of the previous one. -/
theorem dialRound_sublist (d : String → Option String)
    (pending : List String) (e : Option String) :
    List.Sublist (dialRound d pending e).1 pending := by
  rw [dialRound_fst]
  exact List.filter_sublist pending

/-! ### Helper lemmas about substring containment -/

theorem infix_append_left {l l₂ : List Char} (l₁ : List Char)
    (h : l <:+: l₂) : l <:+: l₁ ++ l₂ := by
  obtain ⟨s, t, rfl⟩ := h
  exact ⟨l₁ ++ s, t, by simp⟩

theorem infix_append_right {l l₁ : List Char} (l₂ : List Char)
    (h : l <:+: l₁) : l <:+: l₁ ++ l₂ := by
  obtain ⟨s, t, rfl⟩ := h
  exact ⟨s, t ++ l₂, by simp⟩

theorem goContains_iff (s sub : String) :
    goContains s sub = true ↔ sub.data <:+: s.data := by
  simp [goContains]

/-- The pretty rendering of a port starts with the port itself. -/
theorem prettyPort_data (p : String) :
    ∃ t, (prettyPort p).data = p.data ++ t := by
  unfold prettyPort
  cases portService.find? fun e => e.1 == p with
  | none => exact ⟨[], by simp⟩
  | some e =>
    exact ⟨(" (" ++ e.2 ++ ")").data, by
      simp [String.data_append, List.append_assoc]⟩

/-- A member's image is a substring of the joined rendering. -/
theorem mem_goJoin_infix (sep : String) (f : String → String) :
    ∀ (l : List String) (x : String), x ∈ l →
      (f x).data <:+: (goJoin sep (l.map f)).data
  | [y], x, hx => by
    rw [List.mem_singleton] at hx
    subst hx
    exact List.infix_rfl
  | y :: z :: xs, x, hx => by
    rcases List.mem_cons.mp hx with h | h
    · subst h
      simp only [List.map_cons, goJoin, String.data_append]
      exact infix_append_right _ (infix_append_right _ List.infix_rfl)
    · have ih := mem_goJoin_infix sep f (z :: xs) x h
      simp only [List.map_cons, goJoin, String.data_append] at ih ⊢
      exact infix_append_left _ ih

/-- A pending port occurs verbatim in the pretty-printed pending list. -/
theorem mem_prettyPorts_contains (ports : List String) (p : String)
    (hp : p ∈ ports) : goContains (prettyPorts ports) p = true := by
  rw [goContains_iff]
  have h1 := mem_goJoin_infix ", " prettyPort ports p hp
  obtain ⟨t, ht⟩ := prettyPort_data p
  refine List.IsInfix.trans ?_ h1
  rw [ht]
  exact infix_append_right t List.infix_rfl

/-- A pending port occurs verbatim in the round's log message. -/
theorem roundLogMsg_contains (i maxRetry : Nat) (pending : List String)
    (p : String) (hp : p ∈ pending) :
    goContains (roundLogMsg i maxRetry pending) p = true := by
  rw [goContains_iff]
  unfold roundLogMsg
  simp only [String.data_append]
  exact infix_append_left _ ((goContains_iff _ _).mp
    (mem_prettyPorts_contains pending p hp))

/-! ### Helper lemmas about the retry loop -/

/-- Shifting the round counter commutes with iterating rounds. -/
theorem pendingFrom_shift (dial : Nat → String → Option String) (i : Nat)
    (pending : List String) :
    ∀ k, pendingFrom dial (i + 1) (pendingFrom dial i pending 1) k =
      pendingFrom dial i pending (k + 1)
  | 0 => rfl
  | k + 1 => by
    conv_lhs => rw [pendingFrom]
    conv_rhs => rw [pendingFrom]
    rw [pendingFrom_shift dial i pending k]
    have h : i + 1 + k = i + (k + 1) := by omega
    rw [h]

/-- If some pending port never dials successfully, the loop burns all its
fuel: it executes exactly `fuel` rounds, ends in a timeout, keeps the bad
port pending to the very end, prints one log message per round, and every
one of those messages names the bad port. -/
theorem waitAux_timeout (dial : Nat → String → Option String)
    (maxRetry : Nat) (p : String)
    (hfail : ∀ j, (dial j p).isSome = true) (fuel : Nat) :
    ∀ (i : Nat) (pending : List String) (e : Option String), p ∈ pending →
      (waitAux dial maxRetry i fuel pending e).rounds = fuel ∧
      (∃ er, (waitAux dial maxRetry i fuel pending e).outcome =
        WaitOutcome.timeout er) ∧
      p ∈ (waitAux dial maxRetry i fuel pending e).pending ∧
      (waitAux dial maxRetry i fuel pending e).logs.length = fuel ∧
      ∀ msg ∈ (waitAux dial maxRetry i fuel pending e).logs,
        goContains msg p = true := by
  induction fuel with
  | zero =>
    intro i pending e hp
    exact ⟨rfl, ⟨e, rfl⟩, hp, rfl, by intro msg h; cases h⟩
  | succ fuel ih =>
    intro i pending e hp
    have hmem : p ∈ (dialRound (dial i) pending e).1 :=
      mem_dialRound_of_fail (dial i) pending e p hp (hfail i)
    have hne : (dialRound (dial i) pending e).1 ≠ [] :=
      List.ne_nil_of_mem hmem
    have ihr := ih (i + 1) (dialRound (dial i) pending e).1
      (dialRound (dial i) pending e).2 hmem
    simp only [waitAux, hne, if_false]
    refine ⟨by rw [ihr.1], ihr.2.1, ihr.2.2.1, by simp [ihr.2.2.2.1], ?_⟩
    intro msg hmsg
    rcases List.mem_cons.mp hmsg with h | h
    · subst h
      exact roundLogMsg_contains i maxRetry pending p hp
    · exact ihr.2.2.2.2 msg h

/-- If some pending port never dials successfully, the log trace is exactly
one message per round, the message of round `i + k` being the one for the
pending list reached after `k` rounds. -/
theorem waitAux_logs (dial : Nat → String → Option String)
    (maxRetry : Nat) (p : String)
    (hfail : ∀ j, (dial j p).isSome = true) (fuel : Nat) :
    ∀ (i : Nat) (pending : List String) (e : Option String), p ∈ pending →
      (waitAux dial maxRetry i fuel pending e).logs =
        (List.range fuel).map fun k =>
          roundLogMsg (i + k) maxRetry (pendingFrom dial i pending k) := by
  induction fuel with
  | zero => intro i pending e _; rfl
  | succ fuel ih =>
    intro i pending e hp
    have hmem : p ∈ (dialRound (dial i) pending e).1 :=
      mem_dialRound_of_fail (dial i) pending e p hp (hfail i)
    have hne : (dialRound (dial i) pending e).1 ≠ [] :=
      List.ne_nil_of_mem hmem
    have hone : (dialRound (dial i) pending e).1 = pendingFrom dial i pending 1 := by
      simp only [pendingFrom]
      exact dialRound_fst_indep (dial i) pending e none
    have ihr := ih (i + 1) (dialRound (dial i) pending e).1
      (dialRound (dial i) pending e).2 hmem
    simp only [waitAux, hne, if_false, ihr]
    rw [List.range_succ_eq_map, List.map_cons, List.map_map]
    refine congrArg₂ _ rfl (List.map_congr_left ?_)
    intro k _
    simp only [Function.comp_apply]
    rw [hone, pendingFrom_shift dial i pending k]
    have h : i + 1 + k = i + (k + 1) := by omega
    rw [h]

/-- If the pending list first becomes empty at the end of round `m` and the
budget allows at least `m` rounds, the loop returns success at the end of
round `m`, with nothing pending. -/
theorem waitAux_success (dial : Nat → String → Option String)
    (maxRetry : Nat) (fuel : Nat) :
    ∀ (i : Nat) (pending : List String) (e : Option String) (m : Nat),
      1 ≤ m → m ≤ fuel → pendingFrom dial i pending m = [] →
      (∀ j, j < m → pendingFrom dial i pending j ≠ []) →
      (waitAux dial maxRetry i fuel pending e).rounds = m ∧
      (waitAux dial maxRetry i fuel pending e).pending = [] ∧
      (waitAux dial maxRetry i fuel pending e).outcome = WaitOutcome.ok := by
  induction fuel with
  | zero => intro i pending e m hm1 hm2 _ _; omega
  | succ fuel ih =>
    intro i pending e m hm1 hm2 hempty hprev
    have hone : (dialRound (dial i) pending e).1 = pendingFrom dial i pending 1 := by
      simp only [pendingFrom]
      exact dialRound_fst_indep (dial i) pending e none
    match m, hm1 with
    | 1, _ =>
      have h1 : (dialRound (dial i) pending e).1 = [] := by rw [hone]; exact hempty
      simp [waitAux, h1]
    | m' + 2, _ =>
      have h1 : (dialRound (dial i) pending e).1 ≠ [] := by
        rw [hone]; exact hprev 1 (by omega)
      have hshift := pendingFrom_shift dial i pending
      have ihr := ih (i + 1) (dialRound (dial i) pending e).1
        (dialRound (dial i) pending e).2 (m' + 1) (by omega) (by omega)
        (by rw [hone, hshift]; exact hempty)
        (by
          intro j hj
          rw [hone, hshift]
          exact hprev (j + 1) (by omega))
      simp only [waitAux, h1, if_false]
      exact ⟨by rw [ihr.1], ihr.2.1, ihr.2.2⟩

/-- The final pending list is a subsequence of the one the loop started
from. -/
theorem waitAux_pending_sublist (dial : Nat → String → Option String)
    (maxRetry : Nat) (fuel : Nat) :
    ∀ (i : Nat) (pending : List String) (e : Option String),
      List.Sublist (waitAux dial maxRetry i fuel pending e).pending pending := by
  induction fuel with
  | zero => intro i pending e; exact List.Sublist.refl pending
  | succ fuel ih =>
    intro i pending e
    by_cases h : (dialRound (dial i) pending e).1 = []
    · simp [waitAux, h]
    · simp only [waitAux, h, if_false]
      exact List.Sublist.trans
        (ih (i + 1) (dialRound (dial i) pending e).1 (dialRound (dial i) pending e).2)
        (dialRound_sublist (dial i) pending e)

/-- Iterated pending lists shrink (as subsequences) round by round. -/
theorem pendingFrom_sublist_succ (dial : Nat → String → Option String)
    (i : Nat) (pending : List String) (k : Nat) :
    List.Sublist (pendingFrom dial i pending (k + 1))
      (pendingFrom dial i pending k) := by
  simp only [pendingFrom]
  exact dialRound_sublist _ _ _

/-- Iterated pending lists shrink across any number of rounds. -/
theorem pendingFrom_sublist_le (dial : Nat → String → Option String)
    (i : Nat) (pending : List String) {j k : Nat} (hjk : j ≤ k) :
    List.Sublist (pendingFrom dial i pending k)
      (pendingFrom dial i pending j) := by
  induction k with
  | zero =>
    have : j = 0 := by omega
    subst this
    exact List.Sublist.refl _
  | succ k ihk =>
    rcases Nat.lt_or_ge j (k + 1) with h | h
    · exact List.Sublist.trans (pendingFrom_sublist_succ dial i pending k)
        (ihk (by omega))
    · have : j = k + 1 := by omega
      subst this
      exact List.Sublist.refl _

/-- If no attempt in the window finds the substring, the log-wait loop
times out. -/
theorem wflFrom_timedOut (logs : Nat → String) (e : String) :
    ∀ (fuel i : Nat),
      (∀ j, i ≤ j → j < i + fuel → goContains (logs j) e = false) →
      waitForLogMessageFrom logs e i fuel = LogWaitResult.timedOut
  | 0, _, _ => rfl
  | fuel + 1, i, h => by
    have hi : goContains (logs i) e = false := h i (le_refl i) (by omega)
    simp only [waitForLogMessageFrom, hi, Bool.false_eq_true, if_false]
    exact wflFrom_timedOut logs e fuel (i + 1) fun j h1 h2 => h j (by omega) (by omega)

/-- The log-wait loop returns the first attempt that finds the substring. -/
theorem wflFrom_found (logs : Nat → String) (e : String) :
    ∀ (fuel i k : Nat), i ≤ k → k < i + fuel →
      goContains (logs k) e = true →
      (∀ j, i ≤ j → j < k → goContains (logs j) e = false) →
      waitForLogMessageFrom logs e i fuel = LogWaitResult.found k
  | 0, i, k, hik, hk, _, _ => by omega
  | fuel + 1, i, k, hik, hk, hck, hmin => by
    rcases Nat.eq_or_lt_of_le hik with heq | hlt
    · subst heq
      simp [waitForLogMessageFrom, hck]
    · have hci : goContains (logs i) e = false := hmin i (le_refl i) hlt
      simp only [waitForLogMessageFrom, hci, Bool.false_eq_true, if_false]
      exact wflFrom_found logs e fuel (i + 1) k (by omega) (by omega) hck
        fun j h1 h2 => hmin j (by omega) h2

/-- Whenever the log-wait loop reports a find, the attempt number is inside
the window and that attempt's text really contains the substring. -/
theorem wflFrom_found_inv (logs : Nat → String) (e : String) :
    ∀ (fuel i k : Nat),
      waitForLogMessageFrom logs e i fuel = LogWaitResult.found k →
      i ≤ k ∧ k < i + fuel ∧ goContains (logs k) e = true
  | 0, i, k, h => by simp [waitForLogMessageFrom] at h
  | fuel + 1, i, k, h => by
    by_cases hc : goContains (logs i) e = true
    · simp only [waitForLogMessageFrom, hc, if_true] at h
      injection h with h'
      subst h'
      exact ⟨le_refl i, by omega, hc⟩
    · have hc' : goContains (logs i) e = false := by
        revert hc; cases goContains (logs i) e <;> simp
      simp only [waitForLogMessageFrom, hc', Bool.false_eq_true, if_false] at h
      have ih := wflFrom_found_inv logs e fuel (i + 1) k h
      exact ⟨by omega, by omega, ih.2.2⟩

/-- Two strings with the same character data are equal. -/
theorem string_eq_of_data_eq {s t : String} (h : s.data = t.data) : s = t := by
  cases s
  cases t
  exact congrArg String.mk h

/-! ### The claims -/

/-- C1: for every port list containing at least one port whose dial never
succeeds, `WaitServiceOnline` performs exactly `maxRetry` rounds (each round
dials each still-pending port once, by construction of `dialRound`), then
fails with a timeout error; it never retries beyond the budget and never
succeeds. -/
theorem c1_wait_online_exhausts_budget (dial : Nat → String → Option String)
    (maxRetry : Nat) (ports : List String) (p : String)
    (hp : p ∈ ports) (hfail : ∀ j, (dial j p).isSome = true) :
    (waitServiceOnline dial maxRetry ports).rounds = maxRetry ∧
    (∃ e, (waitServiceOnline dial maxRetry ports).outcome =
      WaitOutcome.timeout e) ∧
    (waitServiceOnline dial maxRetry ports).outcome ≠ WaitOutcome.ok := by
  have h := waitAux_timeout dial maxRetry p hfail maxRetry 1 ports none hp
  refine ⟨h.1, h.2.1, ?_⟩
  obtain ⟨e, he⟩ := h.2.1
  show (waitAux dial maxRetry 1 maxRetry ports none).outcome ≠ WaitOutcome.ok
  rw [he]
  intro hcontra
  cases hcontra

/-- Witness for C1: a single never-opening port with budget 2. -/
theorem c1_witness :
    (waitServiceOnline (fun _ _ => some "connection refused") 2 ["1234"]).rounds = 2 ∧
    (∃ e, (waitServiceOnline (fun _ _ => some "connection refused") 2 ["1234"]).outcome =
      WaitOutcome.timeout e) ∧
    (waitServiceOnline (fun _ _ => some "connection refused") 2 ["1234"]).outcome ≠
      WaitOutcome.ok :=
  c1_wait_online_exhausts_budget (fun _ _ => some "connection refused") 2 ["1234"]
    "1234" (by decide) (fun _ => rfl)

/-- C2: for every non-empty port list, `WaitServiceOnline` drops a port
from the pending set as soon as one dial of it succeeds, and returns
success (nil error) at the end of the first round whose pending set is
empty, executing no further rounds. -/
theorem c2_wait_online_first_success (dial : Nat → String → Option String)
    (maxRetry : Nat) (ports : List String) (k : Nat)
    (hne : ports ≠ []) (hk1 : 1 ≤ k) (hkM : k ≤ maxRetry)
    (hempty : pendingAfter dial ports k = [])
    (hprev : ∀ j, j < k → pendingAfter dial ports j ≠ []) :
    ((waitServiceOnline dial maxRetry ports).rounds = k ∧
     (waitServiceOnline dial maxRetry ports).pending = [] ∧
     (waitServiceOnline dial maxRetry ports).outcome = WaitOutcome.ok) ∧
    ∀ j q, dial (j + 1) q = none → q ∉ pendingAfter dial ports (j + 1) := by
  constructor
  · exact waitAux_success dial maxRetry maxRetry 1 ports none k hk1 hkM hempty hprev
  · intro j q hq
    show q ∉ pendingFrom dial 1 ports (j + 1)
    have h : (1 : Nat) + j = j + 1 := by omega
    simp only [pendingFrom, h]
    exact not_mem_dialRound_of_success _ _ _ q hq

/-- Witness for C2: one port that opens in round 2, budget 5. -/
theorem c2_witness :
    ((waitServiceOnline (fun i _ => if 2 ≤ i then none else some "refused") 5
        ["1234"]).rounds = 2 ∧
     (waitServiceOnline (fun i _ => if 2 ≤ i then none else some "refused") 5
        ["1234"]).pending = [] ∧
     (waitServiceOnline (fun i _ => if 2 ≤ i then none else some "refused") 5
        ["1234"]).outcome = WaitOutcome.ok) ∧
    ∀ j q, (fun i _ => if 2 ≤ i then none else some "refused") (j + 1) q = none →
      q ∉ pendingAfter (fun i _ => if 2 ≤ i then none else some "refused")
        ["1234"] (j + 1) :=
  c2_wait_online_first_success (fun i _ => if 2 ≤ i then none else some "refused")
    5 ["1234"] 2 (by decide) (by decide) (by decide) (by decide) (by decide)

/-- C10: after every round the pending list is a subsequence of the
original input (order preserved, nothing added or duplicated); membership
never comes back, a port dialed successfully in round `k + 1` is not
pending afterwards, and the final pending list of a full call is likewise
a subsequence of the input. -/
theorem c10_pending_subsequence (dial : Nat → String → Option String)
    (ports : List String) (k : Nat) :
    List.Sublist (pendingAfter dial ports k) ports ∧
    List.Sublist (pendingAfter dial ports (k + 1)) (pendingAfter dial ports k) ∧
    (∀ j p, j ≤ k → p ∉ pendingAfter dial ports j → p ∉ pendingAfter dial ports k) ∧
    (∀ p, dial (k + 1) p = none → p ∉ pendingAfter dial ports (k + 1)) ∧
    ∀ maxRetry, List.Sublist (waitServiceOnline dial maxRetry ports).pending ports := by
  refine ⟨pendingFrom_sublist_le dial 1 ports (Nat.zero_le k),
    pendingFrom_sublist_succ dial 1 ports k, ?_, ?_, ?_⟩
  · intro j p hjk hnot hmem
    exact hnot ((pendingFrom_sublist_le dial 1 ports hjk).mem hmem)
  · intro p hp
    show p ∉ pendingFrom dial 1 ports (k + 1)
    have h : (1 : Nat) + k = k + 1 := by omega
    simp only [pendingFrom, h]
    exact not_mem_dialRound_of_success _ _ _ p hp
  · intro maxRetry
    exact waitAux_pending_sublist dial maxRetry maxRetry 1 ports none

/-- Witness for C10: the invariant evaluated on a two-port list where one
port opens in round 2. -/
theorem c10_witness :
    List.Sublist
      (pendingAfter (fun i p => if 2 ≤ i ∧ p = "5550" then none else some "refused")
        ["1234", "5550"] 2)
      ["1234", "5550"] ∧
    ("5550" ∉ pendingAfter
        (fun i p => if 2 ≤ i ∧ p = "5550" then none else some "refused")
        ["1234", "5550"] 2) ∧
    ("9999" ∉ pendingAfter
        (fun i p => if 2 ≤ i ∧ p = "5550" then none else some "refused")
        ["1234", "5550"] 1) ∧
    List.Sublist
      (waitServiceOnline (fun i p => if 2 ≤ i ∧ p = "5550" then none else some "refused")
        3 ["1234", "5550"]).pending
      ["1234", "5550"] := by
  have h := c10_pending_subsequence
    (fun i p => if 2 ≤ i ∧ p = "5550" then none else some "refused")
    ["1234", "5550"] 1
  exact ⟨(c10_pending_subsequence _ ["1234", "5550"] 2).1,
    h.2.2.2.1 "5550" (by decide),
    h.2.2.1 0 "9999" (by omega) (by decide),
    h.2.2.2.2 3⟩

set_option maxRecDepth 8192 in
/-- C3, counterexample: with two never-opening ports and budget 1, the
reported timeout error is built from the budget and the error of the last
dial performed only (`net.go` lines 118-123); the still-closed port
`"1234"` is not part of the message, even though the dial errors carry the
Go runtime's address text.  So the timeout failure does not name the list
of still-failing ports. -/
theorem c3_counterexample :
    (waitServiceOnline
        (fun _ p => if p = "5678" then some "dial tcp :5678: connect: connection refused"
          else some "dial tcp :1234: connect: connection refused")
        1 ["1234", "5678"]).pending = ["1234", "5678"] ∧
    (waitServiceOnline
        (fun _ p => if p = "5678" then some "dial tcp :5678: connect: connection refused"
          else some "dial tcp :1234: connect: connection refused")
        1 ["1234", "5678"]).outcome =
      WaitOutcome.timeout (some "dial tcp :5678: connect: connection refused") ∧
    goContains
      (timeoutErrorMsg 1 (some "dial tcp :5678: connect: connection refused"))
      "1234" = false := by
  refine ⟨?_, ?_, ?_⟩ <;> decide

/-- C3 as amended: when the retry budget is exhausted, the reported failure
is the timeout error naming the retry budget and the last dial error (when
one is present); the still-closed ports are named in the per-round progress
log messages — one per round, the message of round `k + 1` being the one
for the pending list after `k` rounds, and each such message naming every
then-pending port — not in the final error. -/
theorem c3_amended_timeout_reporting (dial : Nat → String → Option String)
    (maxRetry : Nat) (ports : List String) (p : String)
    (hp : p ∈ ports) (hfail : ∀ j, (dial j p).isSome = true) :
    ∃ e, (waitServiceOnline dial maxRetry ports).outcome = WaitOutcome.timeout e ∧
      reportedError maxRetry (waitServiceOnline dial maxRetry ports).outcome =
        some (timeoutErrorMsg maxRetry e) ∧
      (waitServiceOnline dial maxRetry ports).logs =
        ((List.range maxRetry).map fun k =>
          roundLogMsg (k + 1) maxRetry (pendingAfter dial ports k)) ∧
      ∀ k q, q ∈ pendingAfter dial ports k →
        goContains (roundLogMsg (k + 1) maxRetry (pendingAfter dial ports k)) q =
          true := by
  have h := waitAux_timeout dial maxRetry p hfail maxRetry 1 ports none hp
  obtain ⟨e, he⟩ := h.2.1
  refine ⟨e, he, ?_, ?_, ?_⟩
  · show reportedError maxRetry (waitAux dial maxRetry 1 maxRetry ports none).outcome = _
    rw [he]
    rfl
  · show (waitAux dial maxRetry 1 maxRetry ports none).logs = _
    rw [waitAux_logs dial maxRetry p hfail maxRetry 1 ports none hp]
    refine List.map_congr_left ?_
    intro k _
    have h1 : 1 + k = k + 1 := by omega
    rw [h1]
    rfl
  · intro k q hq
    exact roundLogMsg_contains (k + 1) maxRetry (pendingAfter dial ports k) q hq

/-- Witness for the amended C3: two ports, one of which opens in round 2
while the other never opens, budget 2; the outcome is a timeout and the log
trace is the round messages for the successive pending lists. -/
theorem c3_witness :
    ∃ e, (waitServiceOnline
        (fun i p => if p = "5550" ∧ 2 ≤ i then none else some "no route to host") 2
        ["8080", "5550"]).outcome = WaitOutcome.timeout e ∧
      reportedError 2 (waitServiceOnline
        (fun i p => if p = "5550" ∧ 2 ≤ i then none else some "no route to host") 2
        ["8080", "5550"]).outcome = some (timeoutErrorMsg 2 e) ∧
      (waitServiceOnline
        (fun i p => if p = "5550" ∧ 2 ≤ i then none else some "no route to host") 2
        ["8080", "5550"]).logs =
        ((List.range 2).map fun k =>
          roundLogMsg (k + 1) 2 (pendingAfter
            (fun i p => if p = "5550" ∧ 2 ≤ i then none else some "no route to host")
            ["8080", "5550"] k)) ∧
      ∀ k q, q ∈ pendingAfter
          (fun i p => if p = "5550" ∧ 2 ≤ i then none else some "no route to host")
          ["8080", "5550"] k →
        goContains (roundLogMsg (k + 1) 2 (pendingAfter
          (fun i p => if p = "5550" ∧ 2 ≤ i then none else some "no route to host")
          ["8080", "5550"] k)) q = true :=
  c3_amended_timeout_reporting
    (fun i p => if p = "5550" ∧ 2 ≤ i then none else some "no route to host") 2
    ["8080", "5550"] "8080" (by decide) (fun _ => rfl)

/-- C4, counterexample: `WaitServiceOnline` performs no empty-list check
(`net.go` lines 75-131, unlike `requireListenAllInterfaces` and
`requireListenLoopback`, which panic): called with an empty port list and
budget 1 it runs one round, dials nothing, and returns success — a
successful no-op, not a fatal setup error. -/
theorem c4_counterexample :
    (waitServiceOnline (fun _ _ => some "connection refused") 1 []).outcome =
      WaitOutcome.ok ∧
    (waitServiceOnline (fun _ _ => some "connection refused") 1 []).rounds = 1 := by
  decide

/-- C4 as amended: the two binding checks panic on an empty port list
before any socket listing, but `WaitServiceOnline` does not check: with an
empty list (and a positive budget) it returns success at the end of the
first round, having dialed nothing. -/
theorem c4_amended_empty_ports (lsofOut : String → String) (mustListen : Bool)
    (dial : Nat → String → Option String) (maxRetry : Nat)
    (h : 1 ≤ maxRetry) :
    requireListenAllInterfaces lsofOut mustListen [] =
      CheckResult.panicked "No ports given as input" ∧
    requireListenLoopback lsofOut [] =
      CheckResult.panicked "No ports given as input" ∧
    waitServiceOnline dial maxRetry [] =
      ⟨1, [roundLogMsg 1 maxRetry []], [], WaitOutcome.ok⟩ := by
  refine ⟨rfl, rfl, ?_⟩
  match maxRetry, h with
  | n + 1, _ => rfl

/-- C5: for every port with non-empty listing output, the loopback-binding
check with `expectAllInterfaces = false` succeeds (both assertions pass)
iff the output contains the exact loopback token and not the wildcard
token. -/
theorem c5_loopback_binding (lsofOut : String → String) (port : String)
    (h : lsofOut port ≠ "") :
    checkLoopbackBinding lsofOut false [port] =
      (CheckResult.passed, CheckResult.passed) ↔
    (goContains (lsofOut port) ("127.0.0.1:" ++ port ++ " (LISTEN)") = true ∧
     goContains (lsofOut port) ("*:" ++ port ++ " (LISTEN)") = false) := by
  cases h1 : goContains (lsofOut port) ("*:" ++ port ++ " (LISTEN)") <;>
  cases h2 : goContains (lsofOut port) ("127.0.0.1:" ++ port ++ " (LISTEN)") <;>
  simp [checkLoopbackBinding, requireListenAllInterfaces, requireListenLoopback,
    requireListenAllInterfacesAux, requireListenLoopbackAux,
    isListenInterface, filterOpenPorts, Except.map, h, h1, h2]

/-- Witness for C5: an output that lists only the loopback binding. -/
theorem c5_witness :
    checkLoopbackBinding
      (fun _ => "chip-tool 7 root 3u IPv4 TCP 127.0.0.1:5550 (LISTEN)")
      false ["5550"] = (CheckResult.passed, CheckResult.passed) :=
  (c5_loopback_binding
      (fun _ => "chip-tool 7 root 3u IPv4 TCP 127.0.0.1:5550 (LISTEN)")
      "5550" (by decide)).mpr (by refine ⟨?_, ?_⟩ <;> decide)

/-- C6: a port whose socket-listing output is empty makes the binding
checks fail fatally the moment it is reached (reporting the port as not
open), whichever binding (wildcard or loopback) was being asserted. -/
theorem c6_empty_listing_fatal (lsofOut : String → String) (p : String)
    (rest : List String) (mustListen : Bool) (h : lsofOut p = "") :
    requireListenAllInterfaces lsofOut mustListen (p :: rest) =
      CheckResult.fatal ("Port " ++ p ++ " is not open") ∧
    requireListenLoopback lsofOut (p :: rest) =
      CheckResult.fatal ("Port " ++ p ++ " is not open") := by
  constructor <;>
  simp [requireListenAllInterfaces, requireListenLoopback,
    requireListenAllInterfacesAux, requireListenLoopbackAux,
    isListenInterface, filterOpenPorts, Except.map, h]

/-- Witness for C6: empty lsof output for port 5550. -/
theorem c6_witness :
    requireListenAllInterfaces (fun _ => "") true ["5550", "5551"] =
      CheckResult.fatal ("Port " ++ "5550" ++ " is not open") ∧
    requireListenLoopback (fun _ => "") ["5550", "5551"] =
      CheckResult.fatal ("Port " ++ "5550" ++ " is not open") :=
  c6_empty_listing_fatal (fun _ => "") "5550" ["5551"] true rfl

/-- C7: `WaitForLogMessage` succeeds on the first attempt whose accumulated
log text contains the substring, fails terminally when none of the 10
attempts does, never performs an 11th attempt, and never reports success
without a match. -/
theorem c7_await_log_contains (logs : Nat → String) (expectedLog : String) :
    ((∀ i, 1 ≤ i → i ≤ 10 → goContains (logs i) expectedLog = false) →
      waitForLogMessage logs expectedLog = LogWaitResult.timedOut) ∧
    (∀ k, 1 ≤ k → k ≤ 10 → goContains (logs k) expectedLog = true →
      (∀ j, 1 ≤ j → j < k → goContains (logs j) expectedLog = false) →
      waitForLogMessage logs expectedLog = LogWaitResult.found k) ∧
    ∀ k, waitForLogMessage logs expectedLog = LogWaitResult.found k →
      1 ≤ k ∧ k ≤ 10 ∧ goContains (logs k) expectedLog = true := by
  refine ⟨?_, ?_, ?_⟩
  · intro h
    exact wflFrom_timedOut logs expectedLog 10 1 fun j h1 h2 => h j h1 (by omega)
  · intro k h1 h10 hck hmin
    exact wflFrom_found logs expectedLog 10 1 k h1 (by omega) hck hmin
  · intro k h
    have hinv := wflFrom_found_inv logs expectedLog 10 1 k h
    exact ⟨hinv.1, by omega, hinv.2.2⟩

/-- Witness for C7: logs that match on attempt 3, and logs that never
match. -/
theorem c7_witness :
    waitForLogMessage (fun i => if i = 3 then "hello world" else "") "hello" =
      LogWaitResult.found 3 ∧
    waitForLogMessage (fun _ => "") "hello" = LogWaitResult.timedOut := by
  constructor
  · exact (c7_await_log_contains (fun i => if i = 3 then "hello world" else "")
        "hello").2.1 3 (by omega) (by omega) (by decide)
      (by intro j hj1 hj2; interval_cases j <;> decide)
  · exact (c7_await_log_contains (fun _ => "") "hello").1 fun i _ _ => by decide

/-- C8: a configuration variable set to a non-empty value overrides its
default (the default is used otherwise); a boolean-typed variable set to a
non-empty value that does not parse panics at startup; string-typed
variables never fail — in both config files, startup fails exactly when a
boolean variable is non-empty and unparsable. -/
theorem c8_env_overrides (env : String → String) :
    (∀ c, initConfig env = Except.ok c →
      c.serviceChannel = (if env "SERVICE_CHANNEL" = "" then "latest/edge"
        else env "SERVICE_CHANNEL") ∧
      c.localServiceSnapPath = (if env "LOCAL_SERVICE_SNAP" = "" then ""
        else env "LOCAL_SERVICE_SNAP") ∧
      (env "FULL_CONFIG_TEST" = "" → c.fullConfigTest = false) ∧
      (∀ b, parseBool (env "FULL_CONFIG_TEST") = some b → c.fullConfigTest = b) ∧
      (env "SKIP_TEARDOWN_REMOVAL" = "" → c.skipTeardownRemoval = false) ∧
      (∀ b, parseBool (env "SKIP_TEARDOWN_REMOVAL") = some b →
        c.skipTeardownRemoval = b)) ∧
    ((∃ e, initConfig env = Except.error e) ↔
      (env "FULL_CONFIG_TEST" ≠ "" ∧ parseBool (env "FULL_CONFIG_TEST") = none) ∨
      (env "SKIP_TEARDOWN_REMOVAL" ≠ "" ∧
        parseBool (env "SKIP_TEARDOWN_REMOVAL") = none)) ∧
    (∀ c, loadEnvVars env = Except.ok c →
      c.snapChannel = (if env "SNAP_CHANNEL" = "" then "latest/edge"
        else env "SNAP_CHANNEL") ∧
      c.snapPath = (if env "SNAP_PATH" = "" then "" else env "SNAP_PATH") ∧
      (env "TEARDOWN" = "" → c.teardown = true) ∧
      (∀ b, parseBool (env "TEARDOWN") = some b → c.teardown = b)) ∧
    ((∃ e, loadEnvVars env = Except.error e) ↔
      env "TEARDOWN" ≠ "" ∧ parseBool (env "TEARDOWN") = none) := by
  refine ⟨?_, ?_, ?_, ?_⟩
  · intro c hc
    by_cases hF : env "FULL_CONFIG_TEST" = "" <;>
    by_cases hS : env "SKIP_TEARDOWN_REMOVAL" = ""
    · have hpF : parseBool (env "FULL_CONFIG_TEST") = none := by rw [hF]; rfl
      have hpS : parseBool (env "SKIP_TEARDOWN_REMOVAL") = none := by rw [hS]; rfl
      simp only [initConfig, hF, hS, if_true, Except.bind] at hc
      simp only [Except.ok.injEq] at hc
      subst hc
      refine ⟨?_, ?_, fun _ => ?_, ?_, fun _ => ?_, ?_⟩ <;>
        simp [apply_ite Config.serviceChannel,
          apply_ite Config.localServiceSnapPath,
          apply_ite Config.fullConfigTest,
          apply_ite Config.skipTeardownRemoval, defaultConfig, hpF, hpS]
    · cases hpS : parseBool (env "SKIP_TEARDOWN_REMOVAL") with
      | none =>
        simp [initConfig, hF, hS, hpS, Except.bind] at hc
      | some bS =>
        have hpF : parseBool (env "FULL_CONFIG_TEST") = none := by rw [hF]; rfl
        simp only [initConfig, hF, hS, if_true, if_false, hpS, Except.bind] at hc
        simp only [Except.ok.injEq] at hc
        subst hc
        refine ⟨?_, ?_, fun _ => ?_, ?_, fun h => absurd h hS, ?_⟩ <;>
          simp [apply_ite Config.serviceChannel,
            apply_ite Config.localServiceSnapPath,
            apply_ite Config.fullConfigTest,
            apply_ite Config.skipTeardownRemoval, defaultConfig, hpF, hpS]
    · cases hpF : parseBool (env "FULL_CONFIG_TEST") with
      | none =>
        simp [initConfig, hF, hS, hpF, Except.bind] at hc
      | some bF =>
        have hpS : parseBool (env "SKIP_TEARDOWN_REMOVAL") = none := by rw [hS]; rfl
        simp only [initConfig, hF, hS, if_true, if_false, hpF, Except.bind] at hc
        simp only [Except.ok.injEq] at hc
        subst hc
        refine ⟨?_, ?_, fun h => absurd h hF, ?_, fun _ => ?_, ?_⟩ <;>
          simp [apply_ite Config.serviceChannel,
            apply_ite Config.localServiceSnapPath,
            apply_ite Config.fullConfigTest,
            apply_ite Config.skipTeardownRemoval, defaultConfig, hpF, hpS]
    · cases hpF : parseBool (env "FULL_CONFIG_TEST") with
      | none =>
        simp [initConfig, hF, hS, hpF, Except.bind] at hc
      | some bF =>
        cases hpS : parseBool (env "SKIP_TEARDOWN_REMOVAL") with
        | none =>
          simp [initConfig, hF, hS, hpF, hpS, Except.bind] at hc
        | some bS =>
          simp only [initConfig, hF, hS, if_false, hpF, hpS, Except.bind] at hc
          simp only [Except.ok.injEq] at hc
          subst hc
          refine ⟨?_, ?_, fun h => absurd h hF, ?_, fun h => absurd h hS, ?_⟩ <;>
            simp [apply_ite Config.serviceChannel,
              apply_ite Config.localServiceSnapPath,
              apply_ite Config.fullConfigTest,
              apply_ite Config.skipTeardownRemoval, defaultConfig, hpF, hpS]
  · constructor
    · rintro ⟨e, he⟩
      by_cases hF : env "FULL_CONFIG_TEST" = ""
      · by_cases hS : env "SKIP_TEARDOWN_REMOVAL" = ""
        · simp [initConfig, hF, hS, Except.bind] at he
        · cases hpS : parseBool (env "SKIP_TEARDOWN_REMOVAL") with
          | none => exact Or.inr ⟨hS, rfl⟩
          | some bS => simp [initConfig, hF, hS, hpS, Except.bind] at he
      · cases hpF : parseBool (env "FULL_CONFIG_TEST") with
        | none => exact Or.inl ⟨hF, rfl⟩
        | some bF =>
          by_cases hS : env "SKIP_TEARDOWN_REMOVAL" = ""
          · simp [initConfig, hF, hS, hpF, Except.bind] at he
          · cases hpS : parseBool (env "SKIP_TEARDOWN_REMOVAL") with
            | none => exact Or.inr ⟨hS, rfl⟩
            | some bS => simp [initConfig, hF, hS, hpF, hpS, Except.bind] at he
    · rintro (⟨hF, hpF⟩ | ⟨hS, hpS⟩)
      · exact ⟨parseBoolErr (env "FULL_CONFIG_TEST"), by
          simp [initConfig, hF, hpF, Except.bind]⟩
      · by_cases hF : env "FULL_CONFIG_TEST" = ""
        · exact ⟨parseBoolErr (env "SKIP_TEARDOWN_REMOVAL"), by
            simp [initConfig, hF, hS, hpS, Except.bind]⟩
        · cases hpF : parseBool (env "FULL_CONFIG_TEST") with
          | none =>
            exact ⟨parseBoolErr (env "FULL_CONFIG_TEST"), by
              simp [initConfig, hF, hpF, Except.bind]⟩
          | some bF =>
            exact ⟨parseBoolErr (env "SKIP_TEARDOWN_REMOVAL"), by
              simp [initConfig, hF, hS, hpF, hpS, Except.bind]⟩
  · intro c hc
    by_cases hT : env "TEARDOWN" = ""
    · have hpT : parseBool (env "TEARDOWN") = none := by rw [hT]; rfl
      simp only [loadEnvVars, hT, if_true] at hc
      simp only [Except.ok.injEq] at hc
      subst hc
      refine ⟨?_, ?_, fun _ => ?_, ?_⟩ <;>
        simp [apply_ite EnvConfig.snapChannel, apply_ite EnvConfig.snapPath,
          apply_ite EnvConfig.teardown, defaultEnvConfig, hpT]
    · cases hpT : parseBool (env "TEARDOWN") with
      | none => simp [loadEnvVars, hT, hpT] at hc
      | some bT =>
        simp only [loadEnvVars, hT, if_false, hpT] at hc
        simp only [Except.ok.injEq] at hc
        subst hc
        refine ⟨?_, ?_, fun h => absurd h hT, ?_⟩ <;>
          simp [apply_ite EnvConfig.snapChannel, apply_ite EnvConfig.snapPath,
            apply_ite EnvConfig.teardown, defaultEnvConfig, hpT]
  · constructor
    · rintro ⟨e, he⟩
      by_cases hT : env "TEARDOWN" = ""
      · simp [loadEnvVars, hT] at he
      · cases hpT : parseBool (env "TEARDOWN") with
        | none => exact ⟨hT, rfl⟩
        | some bT => simp [loadEnvVars, hT, hpT] at he
    · rintro ⟨hT, hpT⟩
      exact ⟨parseBoolErr (env "TEARDOWN"), by simp [loadEnvVars, hT, hpT]⟩

/-- Witness for C8: overrides `SERVICE_CHANNEL=beta`,
`FULL_CONFIG_TEST=true`, `TEARDOWN=0`, everything else unset. -/
theorem c8_witness :
    (⟨"beta", "", true, false⟩ : Config).serviceChannel =
      (if (fun v => if v = "SERVICE_CHANNEL" then "beta"
          else if v = "FULL_CONFIG_TEST" then "true"
          else if v = "TEARDOWN" then "0" else "") "SERVICE_CHANNEL" = ""
        then "latest/edge"
        else (fun v => if v = "SERVICE_CHANNEL" then "beta"
          else if v = "FULL_CONFIG_TEST" then "true"
          else if v = "TEARDOWN" then "0" else "") "SERVICE_CHANNEL") ∧
    (⟨"beta", "", true, false⟩ : Config).fullConfigTest = true ∧
    (⟨"latest/edge", "", false⟩ : EnvConfig).teardown = false := by
  have h := c8_env_overrides fun v =>
    if v = "SERVICE_CHANNEL" then "beta"
    else if v = "FULL_CONFIG_TEST" then "true"
    else if v = "TEARDOWN" then "0" else ""
  have h1 := h.1 ⟨"beta", "", true, false⟩ (by rfl)
  have h3 := h.2.2.1 ⟨"latest/edge", "", false⟩ (by rfl)
  exact ⟨h1.1, h1.2.2.2.1 true (by decide), h3.2.2.2 false (by decide)⟩

/-- C9: `WriteLogFile` under test name `T` writes exactly the given content
to `logs/<T'>-<label>.log` where `T'` is the test name with every `/`
replaced by `-`; in particular test name `T1`, label `foo`, content `bar`
yield exactly `bar` at `logs/T1-foo.log`. -/
theorem c9_write_artifact :
    (∀ name label content : String,
      writeLogFile (some name) label content =
        ("logs/" ++ replaceSlashes name ++ "-" ++ label ++ ".log", content)) ∧
    (∀ name : String,
      (replaceSlashes name).data =
        name.data.map fun c => if c = '/' then '-' else c) ∧
    writeLogFile (some "T1") "foo" "bar" = ("logs/T1-foo.log", "bar") := by
  refine ⟨?_, fun name => rfl, by rfl⟩
  intro name label content
  unfold writeLogFile logFileName
  simp only [Prod.mk.injEq, and_true]
  apply string_eq_of_data_eq
  simp [String.data_append]

/-- Witness for the amended C4 at concrete arguments. -/
theorem c4_witness :
    requireListenAllInterfaces (fun _ => "") true [] =
      CheckResult.panicked "No ports given as input" ∧
    requireListenLoopback (fun _ => "") [] =
      CheckResult.panicked "No ports given as input" ∧
    waitServiceOnline (fun _ _ => none) 1 [] =
      ⟨1, [roundLogMsg 1 1 []], [], WaitOutcome.ok⟩ :=
  c4_amended_empty_ports (fun _ => "") true (fun _ _ => none) 1 (by decide)

end MatterSnap
